import Mathlib

/-!
Shallow embedding of the RecoveryPenAI backend (`src/main.py`).

The repository exposes three request handlers:
  * `generate_guide` (POST /generate-guide) — builds a prompt from a
    `GuideRequest` and forwards it to a remote completion API;
  * `upload_doc` (POST /upload-doc) — stores uploaded file bytes on disk
    under the client-supplied filename;
  * `generate_docx` (POST /generate-docx) — assembles a word-processor
    document from a `DocxRequest` and returns it as an attachment.

Python string primitives used by the code (`str.strip`, `str.split("\n")`,
`str.replace` on single characters, `str.startswith("-")`, `os.path.join`) are embedded
below as structurally recursive Lean functions so that every definition is
executable and kernel-reducible.  The produced docx document is modelled as a
structured value (list of body elements plus header/footer settings) — the
binary serialization performed by the document library is outside the logic of the program itself.
-/

namespace RecoveryPen

/-! ### Python string primitives -/

/-- ASCII whitespace set of Python `str.strip()` / `str.isspace()`:
space, tab, newline, carriage return, vertical tab, form feed. -/
def pyIsSpace (c : Char) : Bool :=
  c == ' ' || c == '\t' || c == '\n' || c == '\r' || c == '\x0b' || c == '\x0c'

/-- Python `line.strip()`: drop leading and trailing whitespace characters. -/
def pyStrip (s : String) : String :=
  String.mk (((s.toList.dropWhile pyIsSpace).reverse.dropWhile pyIsSpace).reverse)

/-- Split a character list on a separator character, keeping empty segments,
as Python `str.split(sep)` does for a one-character separator. -/
def splitOnChar (c : Char) : List Char → List (List Char)
  | [] => [[]]
  | x :: xs =>
    match splitOnChar c xs with
    | [] => if x == c then [[], []] else [[x]]
    | y :: ys => if x == c then [] :: y :: ys else (x :: y) :: ys

/-- Python `s.split("\n")`. -/
def pySplitNL (s : String) : List String :=
  (splitOnChar '\n' s.toList).map String.mk

/-- Python `s.startswith(c)` for a one-character argument. -/
def pyStartsWithChar (s : String) (c : Char) : Bool :=
  match s.toList with
  | [] => false
  | x :: _ => x == c

/-- Whether a string ends with a given character. -/
def pyEndsWithChar (s : String) (c : Char) : Bool :=
  match s.toList.reverse with
  | [] => false
  | x :: _ => x == c

/-- Python `s.replace(a, b)` for one-character `a` and `b`: substitute every
occurrence of the character `a` by `b`. -/
def pyReplaceChar (s : String) (a b : Char) : String :=
  String.mk (s.toList.map (fun c => if c == a then b else c))

/-- POSIX `os.path.join(a, b)` for two components: an absolute second
component discards the first; otherwise a separator is inserted unless the
first component is empty or already ends with one. -/
def osPathJoin (a b : String) : String :=
  if pyStartsWithChar b '/' then b
  else if a == "" || pyEndsWithChar a '/' then a ++ b
  else a ++ "/" ++ b

/-! ### Configuration constants (`src/main.py` lines 33-36) -/

def UPLOAD_FOLDER : String := "./docs"

def STATIC_FOLDER : String := "./static"

/-- `os.path.join(STATIC_FOLDER, "logo.png")` (line 101). -/
def logoPath : String := osPathJoin STATIC_FOLDER "logo.png"

/-! ### Pydantic request models (`src/main.py` lines 39-49) -/

/-- `GuideRequest` after pydantic validation (defaults already applied). -/
structure GuideRequest where
  topic : String
  objectives : List String
  tone : String := "Empowering"
  format : String := "group"
deriving DecidableEq

/-- A JSON body for POST /generate-guide: each field either present
(`some`) or absent (`none`). -/
structure GuideBody where
  topic : Option String
  objectives : Option (List String)
  tone : Option String
  format : Option String
deriving DecidableEq

/-- Pydantic validation of `GuideRequest`: `topic` and `objectives` are
required (no default), `tone` defaults to "Empowering" and `format` to
"group" when the field is omitted. -/
def parseGuideRequest (b : GuideBody) : Option GuideRequest :=
  match b.topic, b.objectives with
  | some t, some objs =>
      some { topic := t, objectives := objs,
             tone := b.tone.getD "Empowering",
             format := b.format.getD "group" }
  | _, _ => none

/-- `DocxRequest` (lines 45-49). -/
structure DocxRequest where
  topic : String
  objectives : List String
  guide : String
  upload_summary : Option String := none
deriving DecidableEq

/-! ### /generate-guide handler (`src/main.py` lines 52-83) -/

/-- The f-string prompt of `generate_guide`, fixed part before the topic. -/
def promptHead : String :=
  "You are RecoveryPen AI, a trauma-informed assistant. Create a comprehensive, group-ready recovery guide on:\n\nTopic: "

/-- The f-string prompt of `generate_guide`, fixed part after the format. -/
def promptTail : String :=
  "\n\nThe guide should include:\n- Clear headings and sections\n- Practical strategies\n- Realistic examples\n- Bullet points and group discussion prompts\n- Closing summary\n\nBegin now.\n"

/-- The prompt assembled by `generate_guide` (lines 54-72); `chr(10)` is the
newline joining the "- {obj}" objective lines. -/
def buildPrompt (r : GuideRequest) : String :=
  promptHead ++ r.topic ++ "\n\nObjectives:\n" ++
  String.intercalate "\n" (r.objectives.map (fun obj => "- " ++ obj)) ++
  "\n\nTone: " ++ r.tone ++ "\nFormat: " ++ r.format ++ promptTail

/-- JSON body returned by the /generate-guide handler. -/
structure GuideResponse where
  guide : String
  error : Option String
deriving DecidableEq

/-- The /generate-guide handler.  The remote completion call (lines 74-80) is
abstracted as `api : String → Except String String` applied to the prompt:
`.ok text` is the extracted `response.choices[0].message.content`, `.error e`
is any raised exception with `e = str(exception)`.  The `try/except` of
lines 73-83 returns a plain dict in both branches, which the framework
delivers with HTTP status 200; the first component of the result is that status. -/
def generate_guide (api : String → Except String String)
    (request : GuideRequest) : Nat × GuideResponse :=
  let prompt := buildPrompt request
  match api prompt with
  | .ok guide_text => (200, { guide := guide_text, error := none })
  | .error e => (200, { guide := "", error := some e })

/-! ### /upload-doc handler (`src/main.py` lines 86-93) -/

/-- The filesystem, as a map from path strings to stored byte contents. -/
def FileSys : Type := String → Option (List Nat)

/-- Writing a file: the path now holds exactly the new bytes, every other
path is untouched (an existing file at the path is overwritten). -/
def fsWrite (fs : FileSys) (p : String) (c : List Nat) : FileSys :=
  fun q => if q = p then some c else fs q

/-- JSON body returned by the /upload-doc handler. -/
structure UploadResponse where
  message : String
  summary : String
deriving DecidableEq

/-- The /upload-doc handler: writes the uploaded bytes to
`os.path.join(UPLOAD_FOLDER, file.filename)` (lines 88-90) and returns the
acknowledgement message and summary (lines 92-93). -/
def upload_doc (fs : FileSys) (filename : String) (content : List Nat) :
    FileSys × UploadResponse :=
  let file_path := osPathJoin UPLOAD_FOLDER filename
  (fsWrite fs file_path content,
   { message := "Upload complete.",
     summary := "File \u0027" ++ filename ++
       "\u0027 uploaded and indexed. It will be used to enhance AI-guided generation." })

/-! ### /generate-docx handler (`src/main.py` lines 96-151) -/

/-- Paragraph alignment (python-docx `WD_ALIGN_PARAGRAPH`); `left` is the
default of an ordinary paragraph. -/
inductive Align where
  | left
  | center
deriving DecidableEq

/-- A text run inside a paragraph: its text, optional font size in points,
and bold flag. -/
structure TextRun where
  text : String
  sizePt : Option Nat
  bold : Bool
deriving DecidableEq

/-- One element of the document body, in insertion order. -/
inductive DocxElem where
  | picture (path : String) (widthInches : Nat)
  | para (runs : List TextRun) (style : Option String) (align : Align)
  | heading (text : String) (level : Nat)
  | pageBreak
deriving DecidableEq

/-- `doc.add_paragraph(text)`: one unstyled run, default style/alignment. -/
def plainPara (text : String) : DocxElem :=
  .para [⟨text, none, false⟩] none .left

/-- `doc.add_paragraph` with text and the style "List Bullet". -/
def bulletPara (text : String) : DocxElem :=
  .para [⟨text, none, false⟩] (some "List Bullet") .left

/-- `doc.add_paragraph()` with no text: a blank paragraph with no run. -/
def blankPara : DocxElem :=
  .para [] none .left

/-- The cover block of lines 105-109: a centered paragraph whose single run
is bold with font size 20pt. -/
def coverPara : DocxElem :=
  .para [⟨"RecoveryPen AI\nTrauma-Informed Companion\n\n", some 20, true⟩]
    none .center

/-- Classification of one guide line (loop body, lines 130-136): a blank
paragraph when the stripped line is empty, a bulleted paragraph with the
stripped line when it starts with "-", otherwise a plain paragraph with the
stripped line. -/
def guideLineElem (line : String) : DocxElem :=
  if pyStrip line = "" then blankPara
  else if pyStartsWithChar (pyStrip line) '-' then bulletPara (pyStrip line)
  else plainPara (pyStrip line)

/-- The upload-summary section (lines 139-141): `if request.upload_summary:`
is Python truthiness, so an absent value and the empty string both skip the
section. -/
def summaryElems : Option String → List DocxElem
  | none => []
  | some s =>
    if s = "" then []
    else [.heading "Upload Summary" 2, plainPara s]

/-- The document body assembled by `generate_docx` (lines 98-141), in call
order: optional logo picture at 2 inches wide, cover paragraph, page break,
level-1 topic heading, level-2 "Objectives" heading, one bullet per
objective, level-2 "Recovery Guide" heading, one element per guide line,
then the optional upload-summary section.  `logoExists` is the
`os.path.exists(logo_path)` test of line 102. -/
def docxBody (logoExists : Bool) (request : DocxRequest) : List DocxElem :=
  (if logoExists then [DocxElem.picture logoPath 2] else []) ++
  [coverPara,
   DocxElem.pageBreak,
   DocxElem.heading request.topic 1,
   DocxElem.heading "Objectives" 2] ++
  request.objectives.map (fun obj => bulletPara ("- " ++ obj)) ++
  [DocxElem.heading "Recovery Guide" 2] ++
  (pySplitNL request.guide).map guideLineElem ++
  summaryElems request.upload_summary

/-- The assembled document: body plus the header/footer branding of
lines 113-120. -/
structure DocxDoc where
  body : List DocxElem
  headerText : String
  headerAlign : Align
  footerText : String
  footerAlign : Align
deriving DecidableEq

/-- The streaming response of lines 147-151: the saved document, the Word
media type, and the Content-Disposition header string. -/
structure DocxResponse where
  doc : DocxDoc
  mediaType : String
  contentDisposition : String
deriving DecidableEq

/-- The filename derived on line 150: the topic with every space replaced by
an underscore, followed by the fixed suffix. -/
def derivedFilename (topic : String) : String :=
  pyReplaceChar topic ' ' '_' ++ "_Recovery_Guide.docx"

/-- The /generate-docx handler (lines 96-151). -/
def generate_docx (logoExists : Bool) (request : DocxRequest) : DocxResponse :=
  { doc := { body := docxBody logoExists request,
             headerText := "RecoveryPen AI | Trauma-Informed Companion",
             headerAlign := .center,
             footerText := "Page - ",
             footerAlign := .center },
    mediaType := "application/vnd.openxmlformats-officedocument.wordprocessingml.document",
    contentDisposition := "attachment; filename=" ++ derivedFilename request.topic }

/-! ### Auxiliary observation functions -/

/-- Whether a body element is a picture (image). -/
def isPic : DocxElem → Bool
  | .picture _ _ => true
  | .para _ _ _ => false
  | .heading _ _ => false
  | .pageBreak => false

/-- Whether the string `t` is an initial segment of the string `s`. -/
def strStartsWith (s t : String) : Bool :=
  s.toList.take t.toList.length == t.toList

/-- The empty filesystem: no path holds a file. -/
def emptyFS : FileSys := fun _ => none

/-! ### Helper lemmas -/

/-- No guide line ever produces a picture element. -/
theorem isPic_guideLineElem (line : String) : isPic (guideLineElem line) = false := by
  unfold guideLineElem
  split
  · rfl
  · split <;> rfl

/-- The upload-summary section never contains a picture element. -/
theorem countP_isPic_summaryElems (o : Option String) :
    (summaryElems o).countP isPic = 0 := by
  cases o with
  | none => rfl
  | some s =>
    by_cases h : s = "" <;> simp [summaryElems, h, isPic, plainPara]

/-- The cover block is not a picture. -/
theorem isPic_coverPara : isPic coverPara = false := rfl

/-- Bulleted paragraphs are not pictures. -/
theorem isPic_bulletPara (t : String) : isPic (bulletPara t) = false := rfl

/-- Headings are not pictures. -/
theorem isPic_heading (t : String) (n : Nat) : isPic (DocxElem.heading t n) = false := rfl

/-- Page breaks are not pictures. -/
theorem isPic_pageBreak : isPic DocxElem.pageBreak = false := rfl

/-! ### Claim theorems -/

set_option maxRecDepth 8192 in
/-- C1: each line of the guide body, split on newline, is classified in
order: a whitespace-only line yields a blank paragraph, a line whose
stripped form starts with "-" yields a bulleted paragraph with the stripped
line, any other line yields a plain paragraph with the stripped line; the
classified lines follow the "Recovery Guide" heading in the document body,
and for the guide "Intro\n\n- Step one\nStep two" they are plain "Intro",
blank, bulleted "- Step one", plain "Step two". -/
theorem docx_guide_line_classification :
    ∀ (le : Bool) (r : DocxRequest),
      (∃ pre, (generate_docx le r).doc.body =
        pre ++ [DocxElem.heading "Recovery Guide" 2] ++
          (pySplitNL r.guide).map guideLineElem ++ summaryElems r.upload_summary) ∧
      (∀ line : String,
        guideLineElem line =
          if pyStrip line = "" then blankPara
          else if pyStartsWithChar (pyStrip line) '-' then bulletPara (pyStrip line)
          else plainPara (pyStrip line)) ∧
      ((pySplitNL "Intro\n\n- Step one\nStep two").map guideLineElem =
        [plainPara "Intro", blankPara, bulletPara "- Step one", plainPara "Step two"]) ∧
      ((generate_docx false
          { topic := "T", objectives := [], guide := "Intro\n\n- Step one\nStep two" }).doc.body =
        [coverPara, DocxElem.pageBreak, DocxElem.heading "T" 1, DocxElem.heading "Objectives" 2,
         DocxElem.heading "Recovery Guide" 2,
         plainPara "Intro", blankPara, bulletPara "- Step one", plainPara "Step two"]) := by
  intro le r
  refine ⟨⟨(if le then [DocxElem.picture logoPath 2] else []) ++
      [coverPara, DocxElem.pageBreak, DocxElem.heading r.topic 1,
       DocxElem.heading "Objectives" 2] ++
      r.objectives.map (fun obj => bulletPara ("- " ++ obj)), ?_⟩,
    fun _ => rfl, by decide, by decide⟩
  simp [generate_docx, docxBody, List.append_assoc]

/-- C2: the /generate-guide handler returns HTTP status 200 in both branches;
when the completion call fails with exception text `e` it returns an empty
guide together with `error = e`, and when the call succeeds with text `t` it
returns `guide = t` and no error key. -/
theorem guide_endpoint_error_contract :
    ∀ (api : String → Except String String) (r : GuideRequest),
      ((generate_guide api r).1 = 200) ∧
      (∀ e : String, api (buildPrompt r) = .error e →
        (generate_guide api r).2 = { guide := "", error := some e }) ∧
      (∀ t : String, api (buildPrompt r) = .ok t →
        (generate_guide api r).2 = { guide := t, error := none }) := by
  intro api r
  refine ⟨?_, ?_, ?_⟩
  · cases h : api (buildPrompt r) <;> simp [generate_guide, h]
  · intro e he
    simp [generate_guide, he]
  · intro t ht
    simp [generate_guide, ht]

/-- Witness for C2: a concrete always-failing completion call yields the
empty guide and the stringified error. -/
theorem guide_endpoint_error_contract_witness :
    (generate_guide (fun _ => Except.error "boom")
      { topic := "T", objectives := [] }).2 = { guide := "", error := some "boom" } :=
  (guide_endpoint_error_contract (fun _ => Except.error "boom")
    { topic := "T", objectives := [] }).2.1 "boom" rfl

set_option maxRecDepth 4096 in
/-- C5: the Content-Disposition header of /generate-docx carries the topic
with every space replaced by an underscore followed by the fixed suffix
"_Recovery_Guide.docx"; for topic "My Plan" the derived filename is
"My_Plan_Recovery_Guide.docx". -/
theorem docx_attachment_filename :
    ∀ (le : Bool) (r : DocxRequest),
      ((generate_docx le r).contentDisposition =
        "attachment; filename=" ++ derivedFilename r.topic) ∧
      (derivedFilename r.topic = pyReplaceChar r.topic ' ' '_' ++ "_Recovery_Guide.docx") ∧
      (derivedFilename "My Plan" = "My_Plan_Recovery_Guide.docx") := by
  intro le r
  exact ⟨rfl, rfl, by decide⟩

/-- C8: pydantic validation of a /generate-guide body: an omitted tone field
yields tone "Empowering" and an omitted format field yields format "group",
while a body missing topic or objectives is rejected (those fields are
required and have no default). -/
theorem guide_request_defaults :
    ∀ (t : String) (objs : List String) (tn fm : Option String),
      ((parseGuideRequest
          { topic := some t, objectives := some objs, tone := none, format := fm }).map
        GuideRequest.tone = some "Empowering") ∧
      ((parseGuideRequest
          { topic := some t, objectives := some objs, tone := tn, format := none }).map
        GuideRequest.format = some "group") ∧
      (parseGuideRequest { topic := some t, objectives := some objs, tone := tn, format := fm } =
        some { topic := t, objectives := objs,
               tone := tn.getD "Empowering", format := fm.getD "group" }) ∧
      (parseGuideRequest { topic := none, objectives := some objs, tone := tn, format := fm } =
        none) ∧
      (parseGuideRequest { topic := some t, objectives := none, tone := tn, format := fm } =
        none) := by
  intro t objs tn fm
  exact ⟨rfl, rfl, rfl, rfl, rfl⟩

/-- C9: supplying `upload_summary` as the empty string produces exactly the
same document as omitting it (Python truthiness decides inclusion), the
section is dropped in both cases, while a non-empty summary string yields the
"Upload Summary" heading plus one paragraph. -/
theorem docx_empty_upload_summary :
    ∀ (le : Bool) (t : String) (o : List String) (g : String),
      (generate_docx le { topic := t, objectives := o, guide := g, upload_summary := some "" } =
        generate_docx le { topic := t, objectives := o, guide := g, upload_summary := none }) ∧
      (summaryElems (some "") = []) ∧
      (summaryElems none = []) ∧
      (summaryElems (some "S") = [DocxElem.heading "Upload Summary" 2, plainPara "S"]) := by
  intro le t o g
  exact ⟨rfl, rfl, rfl, rfl⟩

set_option maxRecDepth 8192 in
/-- C3: the prompt embeds the topic, tone and format verbatim and embeds the
objectives section, one "- {objective}" line per objective joined by
newlines; for topic "Stress", objectives ["Breathe", "Reflect"], tone
"Calm", format "solo" the prompt splits on newline into exactly the listed
lines, containing "- Breathe" and "- Reflect" in order and the tone and
format values verbatim. -/
theorem prompt_embeds_request_fields :
    ∀ r : GuideRequest,
      (∃ p q, buildPrompt r = p ++ r.topic ++ q) ∧
      (∃ p q, buildPrompt r = p ++ r.tone ++ q) ∧
      (∃ p q, buildPrompt r = p ++ r.format ++ q) ∧
      (∃ p q, buildPrompt r =
        p ++ String.intercalate "\n" (r.objectives.map (fun obj => "- " ++ obj)) ++ q) ∧
      (pySplitNL (buildPrompt
          { topic := "Stress", objectives := ["Breathe", "Reflect"],
            tone := "Calm", format := "solo" }) =
        ["You are RecoveryPen AI, a trauma-informed assistant. Create a comprehensive, group-ready recovery guide on:",
         "",
         "Topic: Stress",
         "",
         "Objectives:",
         "- Breathe",
         "- Reflect",
         "",
         "Tone: Calm",
         "Format: solo",
         "",
         "The guide should include:",
         "- Clear headings and sections",
         "- Practical strategies",
         "- Realistic examples",
         "- Bullet points and group discussion prompts",
         "- Closing summary",
         "",
         "Begin now.",
         ""]) := by
  intro r
  refine ⟨⟨promptHead,
      "\n\nObjectives:\n" ++
        String.intercalate "\n" (r.objectives.map (fun obj => "- " ++ obj)) ++
        "\n\nTone: " ++ r.tone ++ "\nFormat: " ++ r.format ++ promptTail, ?_⟩,
    ⟨promptHead ++ r.topic ++ "\n\nObjectives:\n" ++
        String.intercalate "\n" (r.objectives.map (fun obj => "- " ++ obj)) ++
        "\n\nTone: ",
      "\nFormat: " ++ r.format ++ promptTail, ?_⟩,
    ⟨promptHead ++ r.topic ++ "\n\nObjectives:\n" ++
        String.intercalate "\n" (r.objectives.map (fun obj => "- " ++ obj)) ++
        "\n\nTone: " ++ r.tone ++ "\nFormat: ",
      promptTail, ?_⟩,
    ⟨promptHead ++ r.topic ++ "\n\nObjectives:\n",
      "\n\nTone: " ++ r.tone ++ "\nFormat: " ++ r.format ++ promptTail, ?_⟩,
    by decide⟩ <;>
  simp [buildPrompt, String.append_assoc]

set_option maxRecDepth 4096 in
/-- C4 counterexample: an uploaded file whose client-supplied name is the
absolute path "/evil.txt" is stored at "/evil.txt" itself, not inside the
fixed uploads directory "./docs": the claim that every uploaded file is
written to the fixed uploads directory fails. -/
theorem upload_escapes_uploads_dir :
    ((upload_doc emptyFS "/evil.txt" [97, 98, 99]).1 "/evil.txt" = some [97, 98, 99]) ∧
    ((upload_doc emptyFS "/evil.txt" [97, 98, 99]).1 "./docs//evil.txt" = none) ∧
    (osPathJoin UPLOAD_FOLDER "/evil.txt" = "/evil.txt") ∧
    (strStartsWith (osPathJoin UPLOAD_FOLDER "/evil.txt") UPLOAD_FOLDER = false) := by
  refine ⟨?_, ?_, ?_, ?_⟩ <;> decide

/-- C4 (amended): the uploaded bytes are written unmodified to the path
obtained by POSIX-joining the fixed uploads directory with the
client-supplied filename — below "./docs" exactly when the filename is not
absolute; the rest of the filesystem is untouched; the response contains the
filename inside the summary and the fixed message; a later upload with the
same filename silently overwrites the stored bytes. -/
theorem upload_doc_contract :
    ∀ (fs : FileSys) (name : String) (c1 c2 : List Nat),
      ((upload_doc fs name c1).1 = fsWrite fs (osPathJoin UPLOAD_FOLDER name) c1) ∧
      ((upload_doc fs name c1).1 (osPathJoin UPLOAD_FOLDER name) = some c1) ∧
      (osPathJoin UPLOAD_FOLDER name =
        if pyStartsWithChar name '/' then name else UPLOAD_FOLDER ++ "/" ++ name) ∧
      (∃ p q, (upload_doc fs name c1).2.summary = p ++ name ++ q) ∧
      ((upload_doc fs name c1).2.message = "Upload complete.") ∧
      ((upload_doc (upload_doc fs name c1).1 name c2).1 (osPathJoin UPLOAD_FOLDER name) =
        some c2) := by
  intro fs name c1 c2
  refine ⟨rfl, ?_, ?_,
    ⟨"File \u0027",
     "\u0027 uploaded and indexed. It will be used to enhance AI-guided generation.", rfl⟩,
    rfl, ?_⟩
  · simp [upload_doc, fsWrite]
  · cases h : pyStartsWithChar name '/' <;>
      simp [osPathJoin, h, UPLOAD_FOLDER, pyEndsWithChar]
  · simp [upload_doc, fsWrite]

/-- C6: with no logo file at the static path, assembly still succeeds, the
body is the logo-present body with its leading picture removed, and the
produced document contains no picture element at all; header, footer, media
type and Content-Disposition are unchanged relative to the logo-present
case. -/
theorem docx_missing_logo :
    ∀ r : DocxRequest,
      ((generate_docx true r).doc.body =
        DocxElem.picture logoPath 2 :: (generate_docx false r).doc.body) ∧
      (((generate_docx false r).doc.body).countP isPic = 0) ∧
      ((generate_docx false r).doc.headerText = (generate_docx true r).doc.headerText) ∧
      ((generate_docx false r).doc.headerAlign = (generate_docx true r).doc.headerAlign) ∧
      ((generate_docx false r).doc.footerText = (generate_docx true r).doc.footerText) ∧
      ((generate_docx false r).doc.footerAlign = (generate_docx true r).doc.footerAlign) ∧
      ((generate_docx false r).mediaType = (generate_docx true r).mediaType) ∧
      ((generate_docx false r).contentDisposition =
        (generate_docx true r).contentDisposition) := by
  intro r
  refine ⟨rfl, ?_, rfl, rfl, rfl, rfl, rfl, rfl⟩
  simp [generate_docx, docxBody, List.countP_append, List.countP_cons, List.countP_map,
    List.countP_false, Function.comp, isPic_coverPara, isPic_bulletPara, isPic_heading,
    isPic_pageBreak, isPic_guideLineElem, countP_isPic_summaryElems]

set_option maxRecDepth 8192 in
/-- C7: the assembled document body is, in order: the optional logo picture
at the fixed width, the centered bold cover block, a page break, the level-1
topic heading, the level-2 "Objectives" heading, one bulleted paragraph per
objective in order, then the guide section; the section header and footer
are the fixed branded strings, both centered. -/
theorem docx_element_order :
    ∀ (le : Bool) (r : DocxRequest),
      ((generate_docx le r).doc.body =
        (if le then [DocxElem.picture logoPath 2] else []) ++
        [coverPara, DocxElem.pageBreak, DocxElem.heading r.topic 1,
         DocxElem.heading "Objectives" 2] ++
        r.objectives.map (fun obj => bulletPara ("- " ++ obj)) ++
        [DocxElem.heading "Recovery Guide" 2] ++
        (pySplitNL r.guide).map guideLineElem ++
        summaryElems r.upload_summary) ∧
      (coverPara =
        DocxElem.para [⟨"RecoveryPen AI\nTrauma-Informed Companion\n\n", some 20, true⟩]
          none Align.center) ∧
      ((generate_docx le r).doc.headerText = "RecoveryPen AI | Trauma-Informed Companion") ∧
      ((generate_docx le r).doc.headerAlign = Align.center) ∧
      ((generate_docx le r).doc.footerText = "Page - ") ∧
      ((generate_docx le r).doc.footerAlign = Align.center) ∧
      ((generate_docx true
          { topic := "Topic A", objectives := ["O1", "O2"], guide := "",
            upload_summary := some "S" }).doc.body =
        [DocxElem.picture logoPath 2, coverPara, DocxElem.pageBreak,
         DocxElem.heading "Topic A" 1, DocxElem.heading "Objectives" 2,
         bulletPara "- O1", bulletPara "- O2",
         DocxElem.heading "Recovery Guide" 2, blankPara,
         DocxElem.heading "Upload Summary" 2, plainPara "S"]) := by
  intro le r
  exact ⟨rfl, rfl, rfl, rfl, rfl, rfl, by decide⟩

set_option maxRecDepth 4096 in
/-- C10: the derived attachment filename substitutes only the space
character: character for character, it is the fixed part
"attachment; filename=", then the topic with spaces mapped to underscores
and every other character (tabs, slashes, quotes included) kept verbatim,
then the fixed suffix; concretely for a topic holding a tab, a slash and
quotes. -/
theorem docx_filename_replaces_only_spaces :
    ∀ (le : Bool) (r : DocxRequest),
      ((generate_docx le r).contentDisposition.toList =
        ("attachment; filename=").toList ++
        r.topic.toList.map (fun c => if c == ' ' then '_' else c) ++
        ("_Recovery_Guide.docx").toList) ∧
      (derivedFilename "My\tDocs/v1 \u0022final\u0022" =
        "My\tDocs/v1_\u0022final\u0022_Recovery_Guide.docx") := by
  intro le r
  refine ⟨?_, by decide⟩
  simp [generate_docx, derivedFilename, pyReplaceChar, String.toList, String.data_append,
    List.append_assoc]

end RecoveryPen
